import Mathlib

/-!
Verification of the student-performance-tracker web application (src/app.py).

The relational store (SQLAlchemy models `Student`, `Grade`, `Attendance`)
is embedded as lists of records held in a `Store` structure; every route
handler and model method that the claims mention is transcribed as a pure
Lean function over that state.  Scores are integers as in the source;
averages and percentages are computed in `ℚ`, with `round2` playing the
role of Python's `round(x, 2)`.
-/

/-- `Student` model: `id` (primary key), `name`, `roll_number`. -/
structure Student where
  id : Nat
  name : String
  roll_number : Int
deriving DecidableEq, Repr

/-- `Grade` model: `id`, `subject`, `score`, `student_id`. -/
structure Grade where
  id : Nat
  subject : String
  score : Int
  student_id : Nat
deriving DecidableEq, Repr

/-- `Attendance` model: `id`, `date` (a calendar date, encoded as a natural
number), `status` (the source stores the strings "Present"/"Absent"),
`student_id`. -/
structure Attendance where
  id : Nat
  date : Nat
  status : String
  student_id : Nat
deriving DecidableEq, Repr

/-- The database: the three tables, in insertion order. -/
structure Store where
  students : List Student
  grades : List Grade
  attendance : List Attendance
deriving DecidableEq, Repr

/-- Python's `round(x, 2)`: round to two decimal places. -/
def round2 (q : ℚ) : ℚ := (round (100 * q) : ℤ) / 100

/-- The grades belonging to one student (the `Student.grades` relationship). -/
def studentGrades (st : Store) (sid : Nat) : List Grade :=
  st.grades.filter (fun g => g.student_id == sid)

/-- The attendance records belonging to one student (the
`Student.attendance_records` relationship). -/
def studentAttendance (st : Store) (sid : Nat) : List Attendance :=
  st.attendance.filter (fun r => r.student_id == sid)

/-- `Student.calculate_average` (src/app.py lines 36-39): 0.0 with no
grades, otherwise `round(total / len(self.grades), 2)`. -/
def calculate_average (st : Store) (sid : Nat) : ℚ :=
  let gs := studentGrades st sid
  if gs.isEmpty then 0
  else round2 (((gs.map (fun g => g.score)).sum : ℚ) / (gs.length : ℚ))

/-- `Student.calculate_attendance_percentage` (src/app.py lines 41-62),
transcribed with its redundant recomputations: first the count of distinct
dates is tested for zero, then the raw record count, and the returned value
is `round((present_days / all_marked_days) * 100, 2)` over raw record
counts. -/
def calculate_attendance_percentage (st : Store) (sid : Nat) : ℚ :=
  let mine := studentAttendance st sid
  let total_days := (mine.map (fun r => r.date)).dedup.length
  if total_days = 0 then 100
  else
    let all_marked_days := mine.length
    if all_marked_days = 0 then 100
    else
      let present_days := (mine.filter (fun r => r.status == "Present")).length
      round2 (((present_days : ℚ) / (all_marked_days : ℚ)) * 100)

/-- The `/class_average/<subject>` route (src/app.py lines 315-322): `none`
stands for the "No grades found" page, `some avg` for the numeric page. -/
def class_average (st : Store) (subject : String) : Option ℚ :=
  let gs := st.grades.filter (fun g => g.subject == subject)
  if gs.isEmpty then none
  else some (round2 (((gs.map (fun g => g.score)).sum : ℚ) / (gs.length : ℚ)))

/-- Modelled from the spec (§4.2): the attendance-percentage formula as the
spec words it, to be compared with the transcription of the source. -/
def attendancePct (recs : List Attendance) : ℚ :=
  if recs = [] then 100
  else
    round2 ((((recs.filter (fun r => r.status == "Present")).length : ℚ) /
      (recs.length : ℚ)) * 100)

/-- C1: the attendance-percentage calculator returns 100.0 on an empty
record set and otherwise 100 × present / total, rounded to 2 decimal
places — i.e. it agrees with the spec's `attendancePct` on the student's
records. -/
theorem calculate_attendance_percentage_spec (st : Store) (sid : Nat) :
    calculate_attendance_percentage st sid = attendancePct (studentAttendance st sid) := by
  unfold calculate_attendance_percentage attendancePct
  cases h : studentAttendance st sid with
  | nil => simp
  | cons r rs =>
    simp only [List.map_cons, List.length_cons]
    have hlen : ((r.date :: rs.map (fun r => r.date)).dedup).length ≠ 0 := by
      simp [List.length_eq_zero, List.dedup_eq_nil]
    simp [hlen]

/-- C4: the average-score calculator returns the arithmetic mean of the
student's grade scores rounded to 2 decimal places, and 0.0 when the
student has no grades. -/
theorem calculate_average_spec (st : Store) (sid : Nat) :
    calculate_average st sid =
      if studentGrades st sid = [] then 0
      else round2 ((((studentGrades st sid).map (fun g => g.score)).sum : ℚ) /
        ((studentGrades st sid).length : ℚ)) := by
  unfold calculate_average
  cases h : studentGrades st sid with
  | nil => simp
  | cons g gs => simp

/-- C5: the class-average route reports the distinct "no data" result
exactly when no grade's subject equals the requested name (exact,
case-sensitive string equality), and otherwise the mean of the matching
scores rounded to 2 decimals. -/
theorem class_average_spec (st : Store) (subject : String) :
    (class_average st subject = none ↔
      ∀ g ∈ st.grades, g.subject ≠ subject) ∧
    (∀ g ∈ st.grades, g.subject = subject →
      class_average st subject =
        some (round2 ((((st.grades.filter (fun g => g.subject == subject)).map
            (fun g => g.score)).sum : ℚ) /
          ((st.grades.filter (fun g => g.subject == subject)).length : ℚ)))) := by
  have hiff : (st.grades.filter (fun g => g.subject == subject) = []) ↔
      ∀ g ∈ st.grades, g.subject ≠ subject := by
    constructor
    · intro h g hg hsub
      have : g ∈ st.grades.filter (fun g => g.subject == subject) := by
        simp [List.mem_filter, hg, hsub]
      simp [h] at this
    · intro hall
      by_contra hne
      obtain ⟨g, hg⟩ := List.exists_mem_of_ne_nil _ hne
      have := List.mem_filter.mp hg
      exact hall g this.1 (by simpa using this.2)
  constructor
  · unfold class_average
    by_cases hf : st.grades.filter (fun g => g.subject == subject) = []
    · simp [hf]
      exact hiff.mp hf
    · have hnall : ¬ ∀ g ∈ st.grades, g.subject ≠ subject :=
        fun hall => hf (hiff.mpr hall)
      simp [List.isEmpty_iff, hf, hnall]
  · intro g hg hsub
    unfold class_average
    have hmem : g ∈ st.grades.filter (fun g => g.subject == subject) := by
      simp [List.mem_filter, hg, hsub]
    have hne : st.grades.filter (fun g => g.subject == subject) ≠ [] :=
      List.ne_nil_of_mem hmem
    simp [List.isEmpty_iff, hne]

/-- Witness for C5 at a concrete store: one Math grade, queried for Math
and for a missing subject. -/
theorem class_average_spec_witness :
    class_average ⟨[], [⟨1, "Math", 80, 1⟩, ⟨2, "Math", 60, 1⟩], []⟩ "Math" = some 70 ∧
    class_average ⟨[], [⟨1, "Math", 80, 1⟩], []⟩ "Sci" = none := by
  constructor
  · have h := (class_average_spec ⟨[], [⟨1, "Math", 80, 1⟩, ⟨2, "Math", 60, 1⟩], []⟩ "Math").2
      ⟨1, "Math", 80, 1⟩ (by simp) rfl
    rw [h]
    norm_num [round2, round_eq]
  · exact (class_average_spec ⟨[], [⟨1, "Math", 80, 1⟩], []⟩ "Sci").1.mpr
      (by intro g hg; simp at hg; simp [hg])

/-- The category of advisory emitted by the insight engine (the four
`flash` branches of `check_performance_insight`). -/
inductive InsightCategory where
  | classWide
  | lowAttendance
  | attentionNeeded
  | monitor
deriving DecidableEq, Repr

/-- Threshold constant `LOW_SCORE_THRESHOLD = 50` (src/app.py line 176). -/
def LOW_SCORE_THRESHOLD : Int := 50

/-- Threshold constant `GOOD_SCORE_THRESHOLD = 80` (src/app.py line 177). -/
def GOOD_SCORE_THRESHOLD : Int := 80

/-- Threshold constant `LOW_ATTENDANCE_THRESHOLD = 75` (src/app.py line 178). -/
def LOW_ATTENDANCE_THRESHOLD : ℚ := 75

/-- Threshold constant `LOW_CLASS_AVG_THRESHOLD = 55` (src/app.py line 179). -/
def LOW_CLASS_AVG_THRESHOLD : ℚ := 55

/-- The scores of every grade whose subject equals the given subject
(`[g.score for g in Grade.query.filter(Grade.subject == subject).all()]`). -/
def subjectScores (st : Store) (subject : String) : List Int :=
  (st.grades.filter (fun g => g.subject == subject)).map (fun g => g.score)

/-- `check_performance_insight` (src/app.py lines 175-225): returns which
advisory (if any) is flashed.  The guard transcribes
`if not subject_scores or len(subject_scores) < 2: return`. -/
def check_performance_insight (st : Store) (subject : String) (new_score : Int)
    (sid : Nat) : Option InsightCategory :=
  let attendance_perc := calculate_attendance_percentage st sid
  let subject_scores := subjectScores st subject
  if subject_scores.isEmpty ∨ subject_scores.length < 2 then none
  else
    let cls_avg := round2 ((subject_scores.sum : ℚ) / (subject_scores.length : ℚ))
    if new_score < LOW_SCORE_THRESHOLD ∧ cls_avg < LOW_CLASS_AVG_THRESHOLD then
      some InsightCategory.classWide
    else if new_score < LOW_SCORE_THRESHOLD ∧ attendance_perc < LOW_ATTENDANCE_THRESHOLD then
      some InsightCategory.lowAttendance
    else if new_score < LOW_SCORE_THRESHOLD ∧ LOW_ATTENDANCE_THRESHOLD ≤ attendance_perc then
      some InsightCategory.attentionNeeded
    else if GOOD_SCORE_THRESHOLD ≤ new_score ∧ attendance_perc < LOW_ATTENDANCE_THRESHOLD then
      some InsightCategory.monitor
    else none

/-- The class average that `check_performance_insight` computes and feeds
to its rules (src/app.py lines 184-195); `none` when the guard returns
before the average is computed. -/
def classAverageUsed (st : Store) (subject : String) : Option ℚ :=
  let subject_scores := subjectScores st subject
  if subject_scores.isEmpty ∨ subject_scores.length < 2 then none
  else some (round2 ((subject_scores.sum : ℚ) / (subject_scores.length : ℚ)))

/-- Modelled from the spec (§4.5): the decision table exactly as the spec
words it — no insight below 2 system-wide grades for the subject, then the
four rules in priority order, first match wins. -/
def specInsightTable (numSubjectGrades : Nat) (classAvg attPerc : ℚ)
    (newScore : Int) : Option InsightCategory :=
  if numSubjectGrades < 2 then none
  else if newScore < 50 ∧ classAvg < 55 then some InsightCategory.classWide
  else if newScore < 50 ∧ attPerc < 75 then some InsightCategory.lowAttendance
  else if newScore < 50 ∧ 75 ≤ attPerc then some InsightCategory.attentionNeeded
  else if 80 ≤ newScore ∧ attPerc < 75 then some InsightCategory.monitor
  else none

/-- Outcome reported by the `add_grade` route (which `flash` fires). -/
inductive GradeOutcome where
  | scoreMissing
  | subjectMissing
  | outOfRange
  | added
deriving DecidableEq, Repr

/-- The `/add_grade/<student_id>` route (src/app.py lines 227-257), for an
existing student `sid`: validates the form, persists the grade, and only
then runs the insight check ("Insight check commit ke baad hi karo").
Returns the new store, the emitted insight and the outcome.  Request
parsing is outside the embedding (spec §1): `score` is the form's score
field after `int()`, `none` when the field is absent or blank. -/
def add_grade (st : Store) (sid : Nat) (subject : Option String)
    (score : Option Int) (newId : Nat) :
    Store × Option InsightCategory × GradeOutcome :=
  match score with
  | none => (st, none, GradeOutcome.scoreMissing)
  | some score =>
    match subject with
    | none => (st, none, GradeOutcome.subjectMissing)
    | some subj =>
      if subj = "" then (st, none, GradeOutcome.subjectMissing)
      else if ¬ (0 ≤ score ∧ score ≤ 100) then (st, none, GradeOutcome.outOfRange)
      else
        let st' := { st with grades := st.grades ++ [⟨newId, subj, score, sid⟩] }
        (st', check_performance_insight st' subj score sid, GradeOutcome.added)

/-- Outcome reported by the `add_student` route. -/
inductive StudentOutcome where
  | rollMissing
  | duplicateRoll
  | nameMissing
  | added
deriving DecidableEq, Repr

/-- The `/add_student` route (src/app.py lines 129-159): requires a roll
number, rejects a duplicate roll number before checking the name, then
inserts.  Request parsing is outside the embedding (spec §1):
`roll_number` is the form's field after `int()`, `none` when absent or
blank. -/
def add_student (st : Store) (name : Option String)
    (roll_number : Option Int) (newId : Nat) : Store × StudentOutcome :=
  match roll_number with
  | none => (st, StudentOutcome.rollMissing)
  | some roll_number =>
    if st.students.any (fun s => s.roll_number == roll_number) then
      (st, StudentOutcome.duplicateRoll)
    else
      match name with
      | none => (st, StudentOutcome.nameMissing)
      | some n =>
        if n = "" then (st, StudentOutcome.nameMissing)
        else ({ st with students := st.students ++ [⟨newId, n, roll_number⟩] },
          StudentOutcome.added)

/-- C2: for every grade-addition event the insight engine emits zero or one
advisory — none when the subject has fewer than 2 system-wide grades,
otherwise the first satisfied rule of the spec's priority table (§4.5),
i.e. it coincides with `specInsightTable` fed the subject's grade count,
class average and the student's attendance percentage. -/
theorem check_performance_insight_spec (st : Store) (subject : String)
    (new_score : Int) (sid : Nat) :
    check_performance_insight st subject new_score sid =
      specInsightTable (subjectScores st subject).length
        (round2 (((subjectScores st subject).sum : ℚ) /
          ((subjectScores st subject).length : ℚ)))
        (calculate_attendance_percentage st sid) new_score := by
  unfold check_performance_insight specInsightTable
  by_cases h : (subjectScores st subject).length < 2
  · simp [h]
  · have hne : ¬ (subjectScores st subject).isEmpty = true := by
      simp only [List.isEmpty_iff]
      intro hnil
      rw [hnil] at h
      exact h (by simp)
    simp [h, hne, LOW_SCORE_THRESHOLD, GOOD_SCORE_THRESHOLD,
      LOW_ATTENDANCE_THRESHOLD, LOW_CLASS_AVG_THRESHOLD]

/-- C3: a successful `add_grade` appends the new grade before the insight
check runs, so the insight is computed on the post-state and the class
average it uses is the mean over all grades of the subject including the
new one. -/
theorem add_grade_average_includes_new (st : Store) (sid : Nat)
    (subj : String) (score : Int) (newId : Nat) (hsubj : subj ≠ "")
    (hrange : 0 ≤ score ∧ score ≤ 100) :
    (add_grade st sid (some subj) (some score) newId).1.grades
        = st.grades ++ [⟨newId, subj, score, sid⟩] ∧
    (add_grade st sid (some subj) (some score) newId).2.1
        = check_performance_insight
            (add_grade st sid (some subj) (some score) newId).1 subj score sid ∧
    subjectScores (add_grade st sid (some subj) (some score) newId).1 subj
        = subjectScores st subj ++ [score] ∧
    (subjectScores st subj ≠ [] →
      classAverageUsed (add_grade st sid (some subj) (some score) newId).1 subj
        = some (round2 (((((subjectScores st subj).sum + score : ℤ)) : ℚ)
            / ((((subjectScores st subj).length + 1 : ℕ)) : ℚ)))) := by
  have hadd : add_grade st sid (some subj) (some score) newId
      = ({ st with grades := st.grades ++ [⟨newId, subj, score, sid⟩] },
        check_performance_insight
          { st with grades := st.grades ++ [⟨newId, subj, score, sid⟩] }
          subj score sid, GradeOutcome.added) := by
    unfold add_grade
    simp [hsubj, hrange]
  have hscores : subjectScores
      { st with grades := st.grades ++ [⟨newId, subj, score, sid⟩] } subj
      = subjectScores st subj ++ [score] := by
    unfold subjectScores
    simp [List.filter_append]
  refine ⟨by rw [hadd], by rw [hadd], by rw [hadd]; exact hscores, ?_⟩
  intro hne
  rw [hadd]
  unfold classAverageUsed
  simp only [hscores]
  have hlen : 1 ≤ (subjectScores st subj).length :=
    List.length_pos.mpr hne
  have hguard : ¬ ((subjectScores st subj ++ [score]).isEmpty = true ∨
      (subjectScores st subj ++ [score]).length < 2) := by
    simp only [List.isEmpty_iff, List.length_append, List.length_cons,
      List.length_nil]
    push_neg
    constructor
    · simp
    · omega
  rw [if_neg hguard]
  congr 1
  rw [List.sum_append, List.length_append]
  push_cast
  simp

/-- Witness for C3: two Math grades (40, 45) in store, a grade of 30 is
added; the aggregate becomes [40, 45, 30] and the class average used is
round2(115/3) = 38.33. -/
theorem add_grade_average_includes_new_witness :
    subjectScores (add_grade ⟨[⟨1, "A", 1⟩, ⟨2, "B", 2⟩],
        [⟨1, "Math", 40, 1⟩, ⟨2, "Math", 45, 2⟩], []⟩
        1 (some "Math") (some 30) 3).1 "Math" = [40, 45, 30] ∧
    classAverageUsed (add_grade ⟨[⟨1, "A", 1⟩, ⟨2, "B", 2⟩],
        [⟨1, "Math", 40, 1⟩, ⟨2, "Math", 45, 2⟩], []⟩
        1 (some "Math") (some 30) 3).1 "Math" = some (3833 / 100) := by
  have h := add_grade_average_includes_new
    ⟨[⟨1, "A", 1⟩, ⟨2, "B", 2⟩], [⟨1, "Math", 40, 1⟩, ⟨2, "Math", 45, 2⟩], []⟩
    1 "Math" 30 3 (by decide) (by constructor <;> decide)
  constructor
  · rw [h.2.2.1]
    decide
  · have h4 := h.2.2.2 (by decide)
    rw [h4]
    have hs : subjectScores
        ⟨[⟨1, "A", 1⟩, ⟨2, "B", 2⟩], [⟨1, "Math", 40, 1⟩, ⟨2, "Math", 45, 2⟩], []⟩
        "Math" = [40, 45] := by decide
    rw [hs]
    norm_num [round2, round_eq]

/-- C7: adding a student whose roll number equals an existing student's is
rejected with the duplicate outcome and the whole store is returned
unchanged. -/
theorem add_student_duplicate_rejected (st : Store) (name : Option String)
    (roll : Int) (newId : Nat) (stu : Student) (hstu : stu ∈ st.students)
    (hroll : stu.roll_number = roll) :
    add_student st name (some roll) newId = (st, StudentOutcome.duplicateRoll) := by
  unfold add_student
  have hany : st.students.any (fun s => s.roll_number == roll) = true :=
    List.any_eq_true.mpr ⟨stu, hstu, by simp [hroll]⟩
  simp [hany]

/-- Witness for C7: roll number 7 already taken by Asha; adding Bala with
roll 7 is rejected and the store is unchanged. -/
theorem add_student_duplicate_rejected_witness :
    add_student ⟨[⟨1, "Asha", 7⟩], [], []⟩ (some "Bala") (some 7) 2
      = (⟨[⟨1, "Asha", 7⟩], [], []⟩, StudentOutcome.duplicateRoll) :=
  add_student_duplicate_rejected ⟨[⟨1, "Asha", 7⟩], [], []⟩ (some "Bala") 7 2
    ⟨1, "Asha", 7⟩ (by simp) rfl

/-- C8: adding a grade whose score lies outside 0..100 is rejected: the
store is unchanged, no insight is emitted, and the outcome is not
`added`. -/
theorem add_grade_out_of_range_rejected (st : Store) (sid : Nat)
    (subject : Option String) (score : Int) (newId : Nat)
    (hrange : score < 0 ∨ 100 < score) :
    (add_grade st sid subject (some score) newId).1 = st ∧
    (add_grade st sid subject (some score) newId).2.1 = none ∧
    (add_grade st sid subject (some score) newId).2.2 ≠ GradeOutcome.added := by
  have hnot : ¬ (0 ≤ score ∧ score ≤ 100) := by
    rcases hrange with h | h <;> (intro hc; omega)
  unfold add_grade
  cases subject with
  | none => simp
  | some subj =>
    by_cases hs : subj = ""
    · simp [hs]
    · simp [hs, hnot]

/-- Witness for C8: a score of 150 is rejected on the empty store. -/
theorem add_grade_out_of_range_rejected_witness :
    (add_grade ⟨[], [], []⟩ 1 (some "Math") (some 150) 1).1 = (⟨[], [], []⟩ : Store) ∧
    (add_grade ⟨[], [], []⟩ 1 (some "Math") (some 150) 1).2.1 = none ∧
    (add_grade ⟨[], [], []⟩ 1 (some "Math") (some 150) 1).2.2 ≠ GradeOutcome.added :=
  add_grade_out_of_range_rejected ⟨[], [], []⟩ 1 (some "Math") 150 1 (by decide)

/-- The (student, date) key of an attendance record, the pair the source
declares unique (`_date_student_uc`, src/app.py line 78). -/
def pairKey (r : Attendance) : Nat × Nat := (r.student_id, r.date)

/-- The lookup predicate of `mark_attendance`:
`Attendance.query.filter_by(student_id=..., date=...)`. -/
def pairMatch (sid today : Nat) (r : Attendance) : Bool :=
  r.student_id == sid && r.date == today

/-- Invariant: at most one attendance record per (student, date) pair. -/
def attUnique (att : List Attendance) : Prop := (att.map pairKey).Nodup

/-- `existing_record.status = status` (src/app.py line 296): mutate the
status of the record `.first()` returns, i.e. the first match. -/
def updateFirst (att : List Attendance) (sid today : Nat) (status : String) :
    List Attendance :=
  match att with
  | [] => []
  | r :: rs =>
    if pairMatch sid today r then { r with status := status } :: rs
    else r :: updateFirst rs sid today status

/-- The per-student loop of `mark_attendance` (src/app.py lines 284-301):
students without a submitted status are skipped; an existing record for
(student, today) is updated in place, otherwise a new record is inserted. -/
def markLoop (form : Nat → Option String) (today : Nat) :
    List Student → List Attendance → Nat → List Attendance
  | [], att, _ => att
  | stu :: rest, att, nextId =>
    match form stu.id with
    | none => markLoop form today rest att nextId
    | some status =>
      if status = "" then markLoop form today rest att nextId
      else if (att.filter (pairMatch stu.id today)).isEmpty then
        markLoop form today rest (att ++ [⟨nextId, today, status, stu.id⟩]) (nextId + 1)
      else
        markLoop form today rest (updateFirst att stu.id today status) nextId

/-- The `/mark_attendance` route (src/app.py lines 271-312): today's date
is fixed, nothing happens with no students, otherwise the per-student loop
runs over the full student list.  `form sid` is
`request.form.get('student_<sid>')`. -/
def mark_attendance (st : Store) (form : Nat → Option String) (today : Nat)
    (nextId : Nat) : Store :=
  if st.students.isEmpty then st
  else { st with attendance := markLoop form today st.students st.attendance nextId }

theorem pairMatch_true_iff (sid today : Nat) (r : Attendance) :
    pairMatch sid today r = true ↔ r.student_id = sid ∧ r.date = today := by
  simp [pairMatch]

theorem pairMatch_set_status (sid today : Nat) (r : Attendance) (s : String) :
    pairMatch sid today { r with status := s } = pairMatch sid today r := rfl

theorem pairKey_set_status (r : Attendance) (s : String) :
    pairKey { r with status := s } = pairKey r := rfl

theorem updateFirst_map_pairKey (att : List Attendance) (sid today : Nat)
    (s : String) :
    (updateFirst att sid today s).map pairKey = att.map pairKey := by
  induction att with
  | nil => rfl
  | cons r rs ih =>
    by_cases h : pairMatch sid today r = true
    · simp [updateFirst, h, pairKey_set_status]
    · simp [updateFirst, h, ih]

theorem updateFirst_filter_eq (att : List Attendance) (sid today : Nat)
    (s : String) (p : Attendance → Bool)
    (hp : ∀ r, p { r with status := s } = p r)
    (hfalse : ∀ r, pairMatch sid today r = true → p r = false) :
    (updateFirst att sid today s).filter p = att.filter p := by
  induction att with
  | nil => rfl
  | cons r rs ih =>
    by_cases h : pairMatch sid today r = true
    · simp only [updateFirst, h, if_true]
      rw [List.filter_cons, List.filter_cons, hp r, hfalse r h]
      simp
    · simp only [updateFirst]
      rw [if_neg h, List.filter_cons, List.filter_cons, ih]

theorem updateFirst_filter_pair (att : List Attendance) (sid today : Nat)
    (s : String) (r₀ : Attendance)
    (h : att.filter (pairMatch sid today) = [r₀]) :
    (updateFirst att sid today s).filter (pairMatch sid today)
      = [{ r₀ with status := s }] := by
  induction att with
  | nil => simp at h
  | cons r rs ih =>
    by_cases hm : pairMatch sid today r = true
    · rw [List.filter_cons_of_pos hm] at h
      have hr : r = r₀ := (List.cons_eq_cons.mp h).1
      have hrs : rs.filter (pairMatch sid today) = [] := (List.cons_eq_cons.mp h).2
      simp only [updateFirst, hm, if_true]
      rw [List.filter_cons_of_pos (by rw [pairMatch_set_status]; exact hm), hrs, hr]
    · rw [List.filter_cons_of_neg (by simp [hm])] at h
      simp only [updateFirst]
      rw [if_neg hm, List.filter_cons_of_neg (by simp [hm])]
      exact ih h

theorem markLoop_attUnique (form : Nat → Option String) (today : Nat) :
    ∀ (students : List Student) (att : List Attendance) (nid : Nat),
      attUnique att → attUnique (markLoop form today students att nid) := by
  intro students
  induction students with
  | nil => intro att nid h; exact h
  | cons stu rest ih =>
    intro att nid h
    simp only [markLoop]
    cases hform : form stu.id with
    | none => exact ih att nid h
    | some status =>
      dsimp only
      by_cases hb : status = ""
      · rw [if_pos hb]; exact ih att nid h
      · rw [if_neg hb]
        by_cases hfe : (att.filter (pairMatch stu.id today)).isEmpty = true
        · rw [if_pos hfe]
          apply ih
          have hfil : att.filter (pairMatch stu.id today) = [] :=
            List.isEmpty_iff.mp hfe
          have hnotin : (stu.id, today) ∉ att.map pairKey := by
            intro hmem
            obtain ⟨r, hr, hkeyr⟩ := List.mem_map.mp hmem
            have h1 : r.student_id = stu.id := congrArg Prod.fst hkeyr
            have h2 : r.date = today := congrArg Prod.snd hkeyr
            have hm : pairMatch stu.id today r = true :=
              (pairMatch_true_iff _ _ _).mpr ⟨h1, h2⟩
            have : r ∈ att.filter (pairMatch stu.id today) :=
              List.mem_filter.mpr ⟨hr, hm⟩
            rw [hfil] at this
            exact absurd this (List.not_mem_nil _)
          unfold attUnique
          rw [List.map_append, List.nodup_append]
          refine ⟨h, List.nodup_singleton _, ?_⟩
          intro a ha hb'
          have : a = (stu.id, today) := List.mem_singleton.mp hb'
          exact hnotin (this ▸ ha)
        · rw [if_neg hfe]
          apply ih
          unfold attUnique
          rw [updateFirst_map_pairKey]
          exact h

theorem markLoop_filter_frame (form : Nat → Option String) (today : Nat)
    (p : Attendance → Bool)
    (hp : ∀ (r : Attendance) (s : String), p { r with status := s } = p r) :
    ∀ (students : List Student) (att : List Attendance) (nid : Nat),
      (∀ s ∈ students, form s.id = none ∨ form s.id = some "" ∨
        (∀ r : Attendance, r.date = today → r.student_id = s.id → p r = false)) →
      (markLoop form today students att nid).filter p = att.filter p := by
  intro students
  induction students with
  | nil => intro att nid _; rfl
  | cons stu rest ih =>
    intro att nid hcond
    have hhead := hcond stu (List.mem_cons_self _ _)
    have htail : ∀ s ∈ rest, form s.id = none ∨ form s.id = some "" ∨
        (∀ r : Attendance, r.date = today → r.student_id = s.id → p r = false) :=
      fun s hs => hcond s (List.mem_cons_of_mem _ hs)
    simp only [markLoop]
    cases hform : form stu.id with
    | none => exact ih att nid htail
    | some status =>
      dsimp only
      by_cases hb : status = ""
      · rw [if_pos hb]; exact ih att nid htail
      · rw [if_neg hb]
        have hfalse : ∀ r : Attendance, r.date = today → r.student_id = stu.id →
            p r = false := by
          rcases hhead with hcase | hcase | hcase
          · rw [hform] at hcase; exact absurd hcase (by simp)
          · rw [hform] at hcase
            exact absurd (Option.some.inj hcase) hb
          · exact hcase
        by_cases hfe : (att.filter (pairMatch stu.id today)).isEmpty = true
        · rw [if_pos hfe, ih _ _ htail, List.filter_append]
          have hpnew : p ⟨nid, today, status, stu.id⟩ = false := hfalse _ rfl rfl
          simp [hpnew]
        · rw [if_neg hfe, ih _ _ htail]
          apply updateFirst_filter_eq
          · intro r; exact hp r status
          · intro r hm
            obtain ⟨h1, h2⟩ := (pairMatch_true_iff _ _ _).mp hm
            exact hfalse r h2 h1

theorem attUnique_filter_pair (att : List Attendance) (r₀ : Attendance)
    (sid d : Nat) (h : attUnique att) (hr : r₀ ∈ att)
    (hsid : r₀.student_id = sid) (hd : r₀.date = d) :
    att.filter (pairMatch sid d) = [r₀] := by
  induction att with
  | nil => exact absurd hr (List.not_mem_nil _)
  | cons r rs ih =>
    unfold attUnique at h
    rw [List.map_cons, List.nodup_cons] at h
    have hhead := h.1
    have htail : attUnique rs := h.2
    rcases List.mem_cons.mp hr with heq | hmem
    · subst heq
      rw [List.filter_cons_of_pos ((pairMatch_true_iff _ _ _).mpr ⟨hsid, hd⟩)]
      have hnil : rs.filter (pairMatch sid d) = [] := by
        by_contra hne
        obtain ⟨x, hx⟩ := List.exists_mem_of_ne_nil _ hne
        have hx' := List.mem_filter.mp hx
        obtain ⟨h1, h2⟩ := (pairMatch_true_iff _ _ _).mp hx'.2
        have hkey : pairKey x = pairKey r₀ := by
          unfold pairKey
          rw [h1, h2, hsid, hd]
        exact hhead (hkey ▸ List.mem_map_of_mem pairKey hx'.1)
      rw [hnil]
    · have hne : ¬ pairMatch sid d r = true := by
        intro hm
        obtain ⟨h1, h2⟩ := (pairMatch_true_iff _ _ _).mp hm
        have hkey : pairKey r₀ = pairKey r := by
          unfold pairKey
          rw [h1, h2, hsid, hd]
        exact hhead (hkey ▸ List.mem_map_of_mem pairKey hmem)
      rw [List.filter_cons_of_neg (by simp [hne])]
      exact ih htail hmem

theorem markLoop_upsert (form : Nat → Option String) (today : Nat) :
    ∀ (students : List Student) (att : List Attendance) (nid : Nat)
      (stu : Student) (status : String) (r₀ : Attendance),
      stu ∈ students → form stu.id = some status → status ≠ "" →
      (students.map (fun s => s.id)).Nodup →
      att.filter (pairMatch stu.id today) = [r₀] →
      (markLoop form today students att nid).filter (pairMatch stu.id today)
        = [{ r₀ with status := status }] := by
  intro students
  induction students with
  | nil =>
    intro att nid stu status r₀ hmem _ _ _ _
    exact absurd hmem (List.not_mem_nil _)
  | cons s rest ih =>
    intro att nid stu status r₀ hmem hform hne hnodup hfil
    rw [List.map_cons, List.nodup_cons] at hnodup
    simp only [markLoop]
    rcases List.mem_cons.mp hmem with heq | hmem'
    · subst heq
      cases hf : form stu.id with
      | none => rw [hform] at hf; exact absurd hf (by simp)
      | some status' =>
        dsimp only
        rw [hform] at hf
        have hst : status' = status := (Option.some.inj hf).symm
        subst hst
        rw [if_neg hne]
        have hfe : ¬ (att.filter (pairMatch stu.id today)).isEmpty = true := by
          rw [hfil]; simp
        rw [if_neg hfe]
        have hcondrest : ∀ x ∈ rest, form x.id = none ∨ form x.id = some "" ∨
            (∀ r : Attendance, r.date = today → r.student_id = x.id →
              pairMatch stu.id today r = false) := by
          intro x hx
          refine Or.inr (Or.inr ?_)
          intro r _ hrs
          cases hpm : pairMatch stu.id today r with
          | false => rfl
          | true =>
            obtain ⟨h1, _⟩ := (pairMatch_true_iff _ _ _).mp hpm
            have : stu.id ∈ rest.map (fun s => s.id) := by
              rw [← h1, hrs]
              exact List.mem_map_of_mem _ hx
            exact absurd this hnodup.1
        rw [markLoop_filter_frame form today (pairMatch stu.id today)
          (fun r st' => pairMatch_set_status stu.id today r st') rest _ nid hcondrest]
        exact updateFirst_filter_pair att stu.id today status' r₀ hfil
    · have hsne : s.id ≠ stu.id := by
        intro hcontra
        exact hnodup.1 (hcontra ▸ List.mem_map_of_mem _ hmem')
      cases hf : form s.id with
      | none => exact ih att nid stu status r₀ hmem' hform hne hnodup.2 hfil
      | some status' =>
        dsimp only
        by_cases hb : status' = ""
        · rw [if_pos hb]
          exact ih att nid stu status r₀ hmem' hform hne hnodup.2 hfil
        · rw [if_neg hb]
          by_cases hfe : (att.filter (pairMatch s.id today)).isEmpty = true
          · rw [if_pos hfe]
            apply ih _ _ stu status r₀ hmem' hform hne hnodup.2
            rw [List.filter_append]
            have hpnew : pairMatch stu.id today ⟨nid, today, status', s.id⟩ = false := by
              cases hpm : pairMatch stu.id today ⟨nid, today, status', s.id⟩ with
              | false => rfl
              | true =>
                obtain ⟨h1, _⟩ := (pairMatch_true_iff _ _ _).mp hpm
                exact absurd h1 hsne
            simp [hpnew, hfil]
          · rw [if_neg hfe]
            apply ih _ _ stu status r₀ hmem' hform hne hnodup.2
            rw [updateFirst_filter_eq att s.id today status' (pairMatch stu.id today)
              (fun r => pairMatch_set_status stu.id today r status') ?_]
            · exact hfil
            · intro r hm
              obtain ⟨h1, _⟩ := (pairMatch_true_iff _ _ _).mp hm
              cases hpm : pairMatch stu.id today r with
              | false => rfl
              | true =>
                obtain ⟨h1', _⟩ := (pairMatch_true_iff _ _ _).mp hpm
                exact absurd (h1 ▸ h1' : s.id = stu.id) hsne

/-- C6: at most one attendance record per (student, date) is preserved by
`mark_attendance`, and re-marking a student who already has a record for
today updates that record's status in place — afterwards the records for
(student, today) are exactly the old record with the new status (so any
later attendance-percentage computation sees the updated status). -/
theorem mark_attendance_upsert_in_place (st : Store) (form : Nat → Option String)
    (today nid : Nat) (stu : Student) (status : String) (r₀ : Attendance)
    (hok : attUnique st.attendance)
    (hnodup : (st.students.map (fun s => s.id)).Nodup)
    (hmem : stu ∈ st.students)
    (hform : form stu.id = some status) (hne : status ≠ "")
    (hr : r₀ ∈ st.attendance) (hsid : r₀.student_id = stu.id)
    (hdate : r₀.date = today) :
    attUnique (mark_attendance st form today nid).attendance ∧
    (mark_attendance st form today nid).attendance.filter (pairMatch stu.id today)
      = [{ r₀ with status := status }] := by
  have hse : ¬ st.students.isEmpty = true := by
    simp only [List.isEmpty_iff]
    exact List.ne_nil_of_mem hmem
  unfold mark_attendance
  rw [if_neg hse]
  have hfil : st.attendance.filter (pairMatch stu.id today) = [r₀] :=
    attUnique_filter_pair st.attendance r₀ stu.id today hok hr hsid hdate
  exact ⟨markLoop_attUnique form today st.students st.attendance nid hok,
    markLoop_upsert form today st.students st.attendance nid stu status r₀
      hmem hform hne hnodup hfil⟩

/-- Witness for C6: Asha is already marked Present for day 5; re-marking
with Absent leaves exactly one record for (Asha, day 5), now Absent. -/
theorem mark_attendance_upsert_in_place_witness :
    attUnique (mark_attendance ⟨[⟨1, "Asha", 7⟩], [], [⟨1, 5, "Present", 1⟩]⟩
      (fun sid => if sid = 1 then some "Absent" else none) 5 2).attendance ∧
    (mark_attendance ⟨[⟨1, "Asha", 7⟩], [], [⟨1, 5, "Present", 1⟩]⟩
      (fun sid => if sid = 1 then some "Absent" else none) 5 2).attendance.filter
        (pairMatch 1 5) = [⟨1, 5, "Absent", 1⟩] :=
  mark_attendance_upsert_in_place ⟨[⟨1, "Asha", 7⟩], [], [⟨1, 5, "Present", 1⟩]⟩
    (fun sid => if sid = 1 then some "Absent" else none) 5 2
    ⟨1, "Asha", 7⟩ "Absent" ⟨1, 5, "Present", 1⟩
    (by unfold attUnique; decide) (by decide) (by decide) rfl (by decide)
    (by decide) rfl rfl

/-- C10: a student with no submitted status in the bulk marking form keeps
exactly their previous attendance records, and records dated other than
today are never changed by the marking operation. -/
theorem mark_attendance_skip_and_frame (st : Store) (form : Nat → Option String)
    (today nid sid : Nat) (hform : form sid = none) :
    (mark_attendance st form today nid).attendance.filter
        (fun r => r.student_id == sid)
      = st.attendance.filter (fun r => r.student_id == sid) ∧
    (mark_attendance st form today nid).attendance.filter
        (fun r => !(r.date == today))
      = st.attendance.filter (fun r => !(r.date == today)) := by
  unfold mark_attendance
  by_cases hs : st.students.isEmpty = true
  · rw [if_pos hs]; exact ⟨rfl, rfl⟩
  · rw [if_neg hs]
    constructor
    · apply markLoop_filter_frame form today (fun r => r.student_id == sid)
        (fun r s => rfl)
      intro s _
      by_cases hid : s.id = sid
      · rw [hid, hform]; exact Or.inl rfl
      · refine Or.inr (Or.inr ?_)
        intro r _ hrs
        cases hpr : (r.student_id == sid) with
        | false => rfl
        | true =>
          have hreq : r.student_id = sid := by simpa using hpr
          exact absurd (by rw [← hrs]; exact hreq) hid
    · apply markLoop_filter_frame form today (fun r => !(r.date == today))
        (fun r s => rfl)
      intro s _
      refine Or.inr (Or.inr ?_)
      intro r hrd _
      rw [hrd]
      simp

/-- Witness for C10: student 1 submits no status (only student 2 does); the
records of student 1 and the records of other dates are untouched. -/
theorem mark_attendance_skip_and_frame_witness :
    (mark_attendance ⟨[⟨1, "A", 1⟩, ⟨2, "B", 2⟩], [],
        [⟨1, 4, "Present", 2⟩, ⟨2, 5, "Present", 1⟩]⟩
        (fun sid => if sid = 2 then some "Present" else none) 5 3).attendance.filter
        (fun r => r.student_id == 1)
      = (⟨[⟨1, "A", 1⟩, ⟨2, "B", 2⟩], [],
          [⟨1, 4, "Present", 2⟩, ⟨2, 5, "Present", 1⟩]⟩ : Store).attendance.filter
          (fun r => r.student_id == 1) ∧
    (mark_attendance ⟨[⟨1, "A", 1⟩, ⟨2, "B", 2⟩], [],
        [⟨1, 4, "Present", 2⟩, ⟨2, 5, "Present", 1⟩]⟩
        (fun sid => if sid = 2 then some "Present" else none) 5 3).attendance.filter
        (fun r => !(r.date == 5))
      = (⟨[⟨1, "A", 1⟩, ⟨2, "B", 2⟩], [],
          [⟨1, 4, "Present", 2⟩, ⟨2, 5, "Present", 1⟩]⟩ : Store).attendance.filter
          (fun r => !(r.date == 5)) :=
  mark_attendance_skip_and_frame
    ⟨[⟨1, "A", 1⟩, ⟨2, "B", 2⟩], [], [⟨1, 4, "Present", 2⟩, ⟨2, 5, "Present", 1⟩]⟩
    (fun sid => if sid = 2 then some "Present" else none) 5 3 1 rfl

/-- One CSV cell as the source hands it to `csv.writer`: a string, a
rational (Python float) or an integer.  String rendering of numbers is the
csv library's concern, outside the embedding. -/
inductive Cell where
  | text (v : String)
  | rat (v : ℚ)
  | intv (v : Int)
deriving DecidableEq, Repr

/-- The corrected header row of `/export_backup` (src/app.py line 337). -/
def headerRow : List Cell :=
  [Cell.text "Roll Number", Cell.text "Name", Cell.text "Overall Average %",
   Cell.text "Attendance %", Cell.text "Subject", Cell.text "Score"]

/-- The rows `/export_backup` writes for one student (src/app.py lines
344-361): a single N/A row when the student has no grades, otherwise the
first grade's row carries the summary fields and the remaining grades'
rows leave them blank. -/
def studentRows (st : Store) (stu : Student) : List (List Cell) :=
  let avg := calculate_average st stu.id
  let att_perc := calculate_attendance_percentage st stu.id
  match studentGrades st stu.id with
  | [] => [[Cell.intv stu.roll_number, Cell.text stu.name, Cell.rat avg,
      Cell.rat att_perc, Cell.text "N/A", Cell.text "N/A"]]
  | g :: rest =>
    ([Cell.intv stu.roll_number, Cell.text stu.name, Cell.rat avg,
      Cell.rat att_perc, Cell.text g.subject, Cell.intv g.score]) ::
    rest.map (fun g => [Cell.text "", Cell.text "", Cell.text "",
      Cell.text "", Cell.text g.subject, Cell.intv g.score])

/-- The `/export_backup` route (src/app.py lines 332-368): header row, a
notice row when there are no students, then each student's rows. -/
def export_backup (st : Store) : List (List Cell) :=
  headerRow ::
    ((if st.students.isEmpty then
        [[Cell.text "No students found in the database."]]
      else []) ++
      (st.students.map (fun stu => studentRows st stu)).flatten)

/-- C9: the export starts with the fixed header row; a student with grades
gets one row per grade, the first carrying roll number, name, average and
attendance and the rest leaving those four fields blank; a student with no
grades gets exactly one row with Subject and Score set to N/A. -/
theorem export_backup_format (st : Store) :
    (export_backup st).head? = some headerRow ∧
    (∀ stu ∈ st.students,
      (studentGrades st stu.id = [] →
        studentRows st stu = [[Cell.intv stu.roll_number, Cell.text stu.name,
          Cell.rat (calculate_average st stu.id),
          Cell.rat (calculate_attendance_percentage st stu.id),
          Cell.text "N/A", Cell.text "N/A"]]) ∧
      (∀ g gs, studentGrades st stu.id = g :: gs →
        studentRows st stu = ([Cell.intv stu.roll_number, Cell.text stu.name,
            Cell.rat (calculate_average st stu.id),
            Cell.rat (calculate_attendance_percentage st stu.id),
            Cell.text g.subject, Cell.intv g.score]) ::
          gs.map (fun g => [Cell.text "", Cell.text "", Cell.text "",
            Cell.text "", Cell.text g.subject, Cell.intv g.score]))) ∧
    export_backup st = headerRow ::
      ((if st.students.isEmpty then
          [[Cell.text "No students found in the database."]]
        else []) ++
        (st.students.map (fun stu => studentRows st stu)).flatten) := by
  refine ⟨rfl, ?_, rfl⟩
  intro stu _
  constructor
  · intro h
    unfold studentRows
    rw [h]
  · intro g gs h
    unfold studentRows
    rw [h]

/-- Witness for C9: student 1 has two grades, student 2 has none; the rows
come out as the claim describes. -/
theorem export_backup_format_witness :
    studentRows ⟨[⟨1, "A", 1⟩, ⟨2, "B", 2⟩],
        [⟨1, "Math", 90, 1⟩, ⟨2, "Sci", 70, 1⟩], []⟩ ⟨2, "B", 2⟩
      = [[Cell.intv 2, Cell.text "B",
          Cell.rat (calculate_average ⟨[⟨1, "A", 1⟩, ⟨2, "B", 2⟩],
            [⟨1, "Math", 90, 1⟩, ⟨2, "Sci", 70, 1⟩], []⟩ 2),
          Cell.rat (calculate_attendance_percentage ⟨[⟨1, "A", 1⟩, ⟨2, "B", 2⟩],
            [⟨1, "Math", 90, 1⟩, ⟨2, "Sci", 70, 1⟩], []⟩ 2),
          Cell.text "N/A", Cell.text "N/A"]] ∧
    studentRows ⟨[⟨1, "A", 1⟩, ⟨2, "B", 2⟩],
        [⟨1, "Math", 90, 1⟩, ⟨2, "Sci", 70, 1⟩], []⟩ ⟨1, "A", 1⟩
      = ([Cell.intv 1, Cell.text "A",
          Cell.rat (calculate_average ⟨[⟨1, "A", 1⟩, ⟨2, "B", 2⟩],
            [⟨1, "Math", 90, 1⟩, ⟨2, "Sci", 70, 1⟩], []⟩ 1),
          Cell.rat (calculate_attendance_percentage ⟨[⟨1, "A", 1⟩, ⟨2, "B", 2⟩],
            [⟨1, "Math", 90, 1⟩, ⟨2, "Sci", 70, 1⟩], []⟩ 1),
          Cell.text "Math", Cell.intv 90]) ::
        [[Cell.text "", Cell.text "", Cell.text "", Cell.text "",
          Cell.text "Sci", Cell.intv 70]] := by
  constructor
  · exact ((export_backup_format ⟨[⟨1, "A", 1⟩, ⟨2, "B", 2⟩],
      [⟨1, "Math", 90, 1⟩, ⟨2, "Sci", 70, 1⟩], []⟩).2.1 ⟨2, "B", 2⟩
      (by decide)).1 (by decide)
  · have h := ((export_backup_format ⟨[⟨1, "A", 1⟩, ⟨2, "B", 2⟩],
      [⟨1, "Math", 90, 1⟩, ⟨2, "Sci", 70, 1⟩], []⟩).2.1 ⟨1, "A", 1⟩
      (by decide)).2 ⟨1, "Math", 90, 1⟩ [⟨2, "Sci", 70, 1⟩] (by decide)
    rw [h]
    rfl
